import Mathlib

/-!
Verification development for the `bartdorsey/vscode-config` VS Code extension.

The embedding follows the TypeScript sources:
  * `src/extension.ts` — extension catalogs, `getEnvironment`,
    `getExtensionsForEnvironment`, `installExtensions`, and the four command
    handlers (configure, enable Copilot, disable Copilot, cleanup);
  * `src/settings.ts` — the settings catalogs and `getSettingsForEnvironment`;
  * `src/statusBar.ts` — the `SetupStatus` states.

Host-provided primitives (the VS Code API) are modelled by an oracle record
`Host`; each command is a pure function of the user's dialog answer, the
detected environment and the oracle, returning the tallies the code computes
together with a trace of the install / uninstall / configuration-update host
calls it issues.
-/

namespace VSCodeConfig

/-- JSON-like setting values, as they occur in `src/settings.ts`
(`Record<string, any>`: strings, integers, booleans, arrays, objects). -/
inductive SettingValue where
  | str (s : String)
  | num (n : Int)
  | bool (b : Bool)
  | arr (xs : List SettingValue)
  | obj (fields : List (String × SettingValue))

/-- Boolean test that a character-list `sub` occurs as a contiguous block at
the very front of `s` (helper for `strIncludes`). -/
def charsPrefixOf : List Char → List Char → Bool
  | [], _ => true
  | _ :: _, [] => false
  | a :: p, b :: s => a == b && charsPrefixOf p s

/-- Boolean test that `p` occurs as a contiguous block anywhere in the second
list (helper for `strIncludes`). -/
def charsContain (p : List Char) : List Char → Bool
  | [] => p.isEmpty
  | s@(_ :: rest) => charsPrefixOf p s || charsContain p rest

/-- Model of the JavaScript host primitive `s.includes(sub)`: `sub` occurs as
a contiguous substring of `s`. -/
def strIncludes (s sub : String) : Bool :=
  charsContain sub.toList s.toList

/-- The four environment labels (`type Environment` in `src/settings.ts`). -/
inductive Environment where
  | windows
  | wsl
  | linux
  | other
deriving DecidableEq

/-- `REQUIRED_EXTENSIONS` from `src/extension.ts`. -/
def REQUIRED_EXTENSIONS : List String := [
  "vscodevim.vim",
  "usernamehw.errorlens",
  "ms-azuretools.vscode-containers",
  "ms-vscode-remote.remote-containers",
  "github.vscode-github-actions",
  "ms-python.python",
  "ms-python.debugpy",
  "ms-python.black-formatter",
  "ms-python.flake8",
  "ms-python.vscode-python-envs",
  "chadalen.vscode-jetbrains-icon-theme",
  "jdinhlife.gruvbox",
  "esbenp.prettier-vscode",
  "dbaeumer.vscode-eslint",
  "mattpocock.ts-error-translator",
  "yzhang.markdown-all-in-one",
  "bierner.markdown-mermaid",
  "myriad-dreamin.tinymist",
  "myriad-dreamin.tinymist-vscode-html",
  "pomdtr.excalidraw-editor",
  "ms-vscode.cpptools",
  "ms-vscode.cpptools-extension-pack",
  "ms-vscode.cmake-tools",
  "sst-dev.opencode",
  "Anthropic.claude-code"]

/-- `COPILOT_EXTENSIONS` from `src/extension.ts` (installed separately). -/
def COPILOT_EXTENSIONS : List String := ["github.copilot", "github.copilot-chat"]

/-- `WSL_EXTENSION` from `src/extension.ts`. -/
def WSL_EXTENSION : String := "ms-vscode-remote.remote-wsl"

/-- `WINDOWS_EXTENSIONS` from `src/extension.ts`. -/
def WINDOWS_EXTENSIONS : List String := ["rosc.vs64"]

/-- `LINUX_EXTENSIONS` from `src/extension.ts` (currently none). -/
def LINUX_EXTENSIONS : List String := []

/-- `WSL_SPECIFIC_EXTENSIONS` from `src/extension.ts` (currently none). -/
def WSL_SPECIFIC_EXTENSIONS : List String := []

/-- `getEnvironment` from `src/extension.ts`.  Inputs are the host signals it
reads: `vscode.env.remoteName` (`string | undefined`), `os.platform()` and
`os.release()`. -/
def getEnvironment (remoteName : Option String) (platform : String)
    (release : String) : Environment :=
  if remoteName = some "wsl" then .wsl
  else if platform = "win32" then .windows
  else if platform = "linux" ∧ strIncludes release.toLower "microsoft" = true then .wsl
  else if platform = "linux" then .linux
  else .other

/-- Written from the words of the specification and claim C1: remote session
named "wsl" classifies as "wsl"; otherwise platform "win32" is "windows";
otherwise platform "linux" with a lowercased kernel release containing
"microsoft" is "wsl"; otherwise platform "linux" is "linux"; otherwise
"other". -/
def classifyEnvironmentSpec (remoteName : Option String) (platform : String)
    (release : String) : Environment :=
  if remoteName = some "wsl" then .wsl
  else if platform = "win32" then .windows
  else if platform = "linux" ∧ strIncludes release.toLower "microsoft" = true then .wsl
  else if platform = "linux" then .linux
  else .other

/-- `getExtensionsForEnvironment` from `src/extension.ts`: the pushes onto the
copied `REQUIRED_EXTENSIONS` array become list appends. -/
def getExtensionsForEnvironment (environment : Environment) : List String :=
  let extensions := REQUIRED_EXTENSIONS
  match environment with
  | .windows => extensions ++ WINDOWS_EXTENSIONS ++ [WSL_EXTENSION]
  | .wsl => extensions ++ WINDOWS_EXTENSIONS ++ WSL_SPECIFIC_EXTENSIONS ++ [WSL_EXTENSION]
  | .linux => extensions ++ LINUX_EXTENSIONS
  | .other => extensions

/-- The extension list that `installExtensions` in `src/extension.ts` builds
inline (duplicating the `getExtensionsForEnvironment` switch). -/
def extensionsToInstall (environment : Environment) : List String :=
  let base := REQUIRED_EXTENSIONS
  match environment with
  | .windows => base ++ WINDOWS_EXTENSIONS ++ [WSL_EXTENSION]
  | .wsl => base ++ WINDOWS_EXTENSIONS ++ WSL_SPECIFIC_EXTENSIONS ++ [WSL_EXTENSION]
  | .linux => base ++ LINUX_EXTENSIONS
  | .other => base

/-- Written from the words of claim C3: the static required list with the
environment-conditional appends. -/
def extensionsSpec (environment : Environment) : List String :=
  match environment with
  | .windows => REQUIRED_EXTENSIONS ++ WINDOWS_EXTENSIONS ++ [WSL_EXTENSION]
  | .wsl => REQUIRED_EXTENSIONS ++ WINDOWS_EXTENSIONS ++ WSL_SPECIFIC_EXTENSIONS ++ [WSL_EXTENSION]
  | .linux => REQUIRED_EXTENSIONS ++ LINUX_EXTENSIONS
  | .other => REQUIRED_EXTENSIONS

/-- First-match lookup in a key/value list, modelling reading a property of a
JavaScript object literal (all the objects below have pairwise distinct
keys). -/
def lookupKey {α : Type} : List (String × α) → String → Option α
  | [], _ => none
  | kv :: rest, key => if kv.1 = key then some kv.2 else lookupKey rest key

/-- Model of adding one property to a JavaScript object: if the key is already
present its value is replaced in place, otherwise the pair is appended. -/
def spreadInsert {α : Type} (m : List (String × α)) (kv : String × α) :
    List (String × α) :=
  if m.any (fun p => p.1 = kv.1) then
    m.map (fun p => if p.1 = kv.1 then (p.1, kv.2) else p)
  else m ++ [kv]

/-- Model of the JavaScript object spread `{...a, ...b}`: the properties of
`b` are added to `a` one by one, later keys overriding earlier ones. -/
def spread {α : Type} : List (String × α) → List (String × α) → List (String × α)
  | a, [] => a
  | a, kv :: rest => spread (spreadInsert a kv) rest

/-- Plain disjunction on options: the first operand if it is `some`, otherwise
the second (used to state what key overriding means). -/
def orElseOpt {α : Type} : Option α → Option α → Option α
  | some v, _ => some v
  | none, b => b

set_option maxHeartbeats 1000000 in
/-- `commonSettings` from `src/settings.ts`, transcribed entry by entry in
source order. -/
def commonSettings : List (String × SettingValue) := [
  ("workbench.tree.indent", .num 20),
  ("workbench.editor.labelFormat", .str "short"),
  ("workbench.iconTheme", .str "vscode-jetbrains-icon-theme-2023-auto"),
  ("workbench.startupEditor", .str "none"),
  ("workbench.colorTheme", .str "Gruvbox Dark Hard"),
  ("explorer.compactFolders", .bool false),
  ("editor.tabSize", .num 4),
  ("editor.insertSpaces", .bool true),
  ("editor.formatOnSave", .bool true),
  ("editor.formatOnPaste", .bool true),
  ("editor.bracketPairColorization.enabled", .bool true),
  ("editor.guides.bracketPairs", .bool true),
  ("editor.inlayHints.enabled", .str "offUnlessPressed"),
  ("editor.rulers", .arr [.num 80]),
  ("editor.minimap.enabled", .bool false),
  ("editor.wordWrap", .str "wordWrapColumn"),
  ("editor.wrappingStrategy", .str "advanced"),
  ("editor.fontFamily", .str "Iosevka Nerd Font"),
  ("git.openRepositoryInParentFolders", .str "always"),
  ("git.autofetch", .bool true),
  ("github.copilot.enable", .obj [
    ("*", .bool false),
    ("plaintext", .bool false),
    ("markdown", .bool false),
    ("scminput", .bool false),
    ("css", .bool false)]),
  ("chat.disableAIFeatures", .bool false),
  ("errorLens.problemRangeDecorationEnabled", .bool true),
  ("errorLens.gutterIconSet", .str "square"),
  ("errorLens.followCursor", .str "closestProblem"),
  ("files.trimTrailingWhitespace", .bool true),
  ("files.trimFinalNewlines", .bool true),
  ("files.insertFinalNewline", .bool true),
  ("files.exclude", .obj [
    ("**/.venv", .bool true),
    ("**/.git", .bool true),
    ("**/.DS_Store", .bool true),
    ("**/node_modules", .bool true),
    ("**/.vscode", .bool false)]),
  ("markdown-mermaid.lightModeTheme", .str "dark"),
  ("[markdown]", .obj [("editor.defaultFormatter", .str "esbenp.prettier-vscode")]),
  ("emmet.includeLanguages", .obj [
    ("django-html", .str "html"),
    ("jinja-html", .str "html"),
    ("javascript", .str "javascriptreact")]),
  ("redhat.telemetry.enabled", .bool false),
  ("terminal.integrated.scrollback", .num 10000),
  ("javascript.updateImportsOnFileMove.enabled", .str "always"),
  ("typescript.updateImportsOnFileMove.enabled", .str "always"),
  ("javascript.suggest.autoImports", .bool false),
  ("typescript.suggest.autoImports", .bool false),
  ("javascript.inlayHints.functionLikeReturnTypes.enabled", .bool true),
  ("javascript.inlayHints.parameterNames.enabled", .str "all"),
  ("javascript.inlayHints.parameterTypes.enabled", .bool true),
  ("javascript.inlayHints.propertyDeclarationTypes.enabled", .bool true),
  ("javascript.inlayHints.variableTypes.enabled", .bool true),
  ("typescript.inlayHints.enumMemberValues.enabled", .bool true),
  ("typescript.inlayHints.functionLikeReturnTypes.enabled", .bool true),
  ("typescript.inlayHints.parameterNames.enabled", .str "all"),
  ("typescript.inlayHints.parameterTypes.enabled", .bool true),
  ("typescript.inlayHints.propertyDeclarationTypes.enabled", .bool true),
  ("typescript.inlayHints.variableTypes.enabled", .bool true),
  ("[javascript]", .obj [("editor.defaultFormatter", .str "esbenp.prettier-vscode")]),
  ("[javascriptreact]", .obj [("editor.defaultFormatter", .str "esbenp.prettier-vscode")]),
  ("[typescript]", .obj [("editor.defaultFormatter", .str "esbenp.prettier-vscode")]),
  ("[typescriptreact]", .obj [("editor.defaultFormatter", .str "esbenp.prettier-vscode")]),
  ("totalTypeScript.hideAllTips", .bool false),
  ("totalTypeScript.hideBasicTips", .bool false),
  ("python.analysis.autoImportCompletions", .bool false),
  ("python.analysis.typeCheckingMode", .str "standard"),
  ("python.analysis.diagnosticMode", .str "workspace"),
  ("python.analysis.completeFunctionParens", .bool true),
  ("python.analysis.generateWithTypeAnnotation", .bool true),
  ("python.analysis.inlayHints.callArgumentNames", .str "all"),
  ("python.analysis.inlayHints.functionReturnTypes", .bool true),
  ("python.analysis.inlayHints.variableTypes", .bool true),
  ("python.analysis.typeEvaluation.strictDictionaryInference", .bool true),
  ("python.analysis.typeEvaluation.strictListInference", .bool true),
  ("python.analysis.typeEvaluation.strictSetInference", .bool true),
  ("[python]", .obj [("editor.defaultFormatter", .str "ms-python.black-formatter")]),
  ("html.format.indentInnerHtml", .bool true),
  ("[css]", .obj [("editor.defaultFormatter", .str "esbenp.prettier-vscode")]),
  ("vim.vimrc.path", .str "$HOME/.config/vim/vimrc"),
  ("vim.vimrc.enable", .bool true),
  ("vim.neovimUseConfigFile", .bool true),
  ("vim.leader", .str "<space>"),
  ("vim.highlightedyank.enable", .bool true),
  ("vim.useSystemClipboard", .bool true),
  ("vim.sneak", .bool true),
  ("vim.sneakReplacesF", .bool true),
  ("open-in-vim.useNeovim", .bool true),
  ("vim.normalModeKeyBindingsNonRecursive", .arr [
    .obj [
      ("before", .arr [.str "<leader>", .str "/"]),
      ("after", .arr [.str "<leader>", .str "<leader>", .str "s"])]]),
  ("vim.normalModeKeyBindings", .arr [
    .obj [
      ("before", .arr [.str "<leader>", .str "f", .str "f"]),
      ("commands", .arr [.str "television.ToggleFileFinder"])],
    .obj [
      ("before", .arr [.str "<leader>", .str "f", .str "r"]),
      ("commands", .arr [.str "television.ToggleTextFinder"])],
    .obj [
      ("before", .arr [.str "<leader>", .str "<space>"]),
      ("commands", .arr [.str "workbench.action.showAllEditors"])]])]

/-- `windowsSettings` from `src/settings.ts`. -/
def windowsSettings : List (String × SettingValue) := [
  ("vs64.showWelcome", .bool false),
  ("vs64.kickInstallDir", .str "E:\\c64\\coding\\KickAssembler"),
  ("vs64.acmeInstallDir", .str "E:\\c64\\coding"),
  ("vs64.viceExecutable", .str "E:\\GTK3VICE-3.10-win64\\bin\\x64sc.exe"),
  ("vs64.llvmInstallDir", .str "E:\\c64\\coding\\llvm-mos"),
  ("vs64.cc65InstallDir", .str "C:\\Users\\bart\\scoop\\apps\\cc65\\current"),
  ("vs64.oscar64InstallDir", .str "C:\\Program Files\\Oscar64")]

/-- `linuxSettings` from `src/settings.ts` (currently empty). -/
def linuxSettings : List (String × SettingValue) := []

/-- `wslSettings` from `src/settings.ts` (currently empty). -/
def wslSettings : List (String × SettingValue) := []

/-- `getSettingsForEnvironment` from `src/settings.ts`: the object spreads of
the source become `spread`. -/
def getSettingsForEnvironment (environment : Environment) :
    List (String × SettingValue) :=
  let osSpecificSettings : List (String × SettingValue) :=
    match environment with
    | .windows => windowsSettings
    | .wsl => spread windowsSettings wslSettings
    | .linux => linuxSettings
    | .other => []
  spread commonSettings osSpecificSettings

/-- Written from the words of claim C4: the per-environment delta map that is
laid over the common settings. -/
def environmentDelta (environment : Environment) : List (String × SettingValue) :=
  match environment with
  | .windows => windowsSettings
  | .wsl => spread windowsSettings wslSettings
  | .linux => linuxSettings
  | .other => []

/-- `SetupStatus` from `src/statusBar.ts`. -/
inductive SetupStatus where
  | notStarted
  | inProgress
  | complete
  | error
deriving DecidableEq

/-- Oracle for the host-provided primitives the commands call.  A `.error m`
result models the corresponding `await` throwing with message `m`. -/
structure Host where
  /-- `vscode.extensions.getExtension id` returning a defined value. -/
  isInstalled : String → Bool
  /-- `executeCommand "workbench.extensions.installExtension" id`. -/
  installExt : String → Except String Unit
  /-- `executeCommand "workbench.extensions.uninstallExtension" id`. -/
  uninstallExt : String → Except String Unit
  /-- `config.update key value ConfigurationTarget.Global`; `none` is the
  `undefined` value that removes the key. -/
  updateConfig : String → Option SettingValue → Except String Unit

/-- One install / uninstall / configuration-update call issued to the host. -/
inductive HostCall where
  | install (id : String)
  | uninstall (id : String)
  | update (key : String) (value : Option SettingValue)

/-- Tallies and host-call trace of an extension-install loop. -/
structure InstallResult where
  installed : Nat
  failed : Nat
  skipped : Nat
  trace : List HostCall

/-- Tallies and host-call trace of a settings loop. -/
structure SettingsResult where
  success : Nat
  error : Nat
  trace : List HostCall

/-- Tallies and host-call trace of an uninstall loop.  `failedExtensions` is
the failure list that only the cleanup command reports (the disable-Copilot
loop computes the same tallies and ignores this field). -/
structure UninstallResult where
  uninstalled : Nat
  uninstallFailed : Nat
  failedExtensions : List String
  trace : List HostCall

/-- Loop body of `installExtensions` in `src/extension.ts` (also of the
Copilot install loop in `enableCopilot`, which is verbatim the same): skip
an already-installed extension, otherwise attempt the install and count the
outcome. -/
def installStep (host : Host) (acc : InstallResult) (extensionId : String) :
    InstallResult :=
  if host.isInstalled extensionId then
    { acc with skipped := acc.skipped + 1 }
  else
    match host.installExt extensionId with
    | .ok _ =>
      { acc with installed := acc.installed + 1,
                 trace := acc.trace ++ [.install extensionId] }
    | .error _ =>
      { acc with failed := acc.failed + 1,
                 trace := acc.trace ++ [.install extensionId] }

/-- `installExtensions` from `src/extension.ts`: build the environment's list
and run the install loop. -/
def installExtensions (environment : Environment) (host : Host) : InstallResult :=
  (extensionsToInstall environment).foldl (installStep host) ⟨0, 0, 0, []⟩

/-- The benign update-error test the commands share:
`errorMessage.includes("not a registered configuration")`. -/
def benignConfigError (m : String) : Bool :=
  strIncludes m "not a registered configuration"

/-- The benign uninstall-error test:
`errorMessage.includes("is not installed")`. -/
def benignNotInstalled (m : String) : Bool :=
  strIncludes m "is not installed"

/-- Loop body of the settings loop in `configureCommand` (the two inline
`config.update` blocks of `enableCopilot` count identically): a successful
update, or one failing with the benign "not a registered configuration"
message, increments the success tally; any other error increments the error
tally. -/
def settingsStep (host : Host) (acc : SettingsResult) (kv : String × SettingValue) :
    SettingsResult :=
  let t := acc.trace ++ [.update kv.1 (some kv.2)]
  match host.updateConfig kv.1 (some kv.2) with
  | .ok _ => { acc with success := acc.success + 1, trace := t }
  | .error m =>
    if benignConfigError m then { acc with success := acc.success + 1, trace := t }
    else { acc with error := acc.error + 1, trace := t }

/-- The settings loop of `configureCommand` over the entries of the
environment's settings map. -/
def applySettings (host : Host) (entries : List (String × SettingValue)) :
    SettingsResult :=
  entries.foldl (settingsStep host) ⟨0, 0, []⟩

/-- Loop body of the uninstall loops of `disableCopilot` and `cleanup`: a
successful uninstall counts; an error whose message contains
"is not installed" is only logged; any other error counts as a failure (and
`cleanup` records the extension id). -/
def uninstallStep (host : Host) (acc : UninstallResult) (extensionId : String) :
    UninstallResult :=
  let t := acc.trace ++ [.uninstall extensionId]
  match host.uninstallExt extensionId with
  | .ok _ => { acc with uninstalled := acc.uninstalled + 1, trace := t }
  | .error m =>
    if benignNotInstalled m then { acc with trace := t }
    else
      { acc with uninstallFailed := acc.uninstallFailed + 1,
                 failedExtensions := acc.failedExtensions ++ [extensionId],
                 trace := t }

/-- The two settings blocks of `disableCopilot`: success (or benign error)
increments `settingsSuccess`; a non-benign error is only logged — that
command has no settings-failure counter. -/
def disableSettingStep (host : Host) (acc : SettingsResult)
    (kv : String × SettingValue) : SettingsResult :=
  let t := acc.trace ++ [.update kv.1 (some kv.2)]
  match host.updateConfig kv.1 (some kv.2) with
  | .ok _ => { acc with success := acc.success + 1, trace := t }
  | .error m =>
    if benignConfigError m then { acc with success := acc.success + 1, trace := t }
    else { acc with trace := t }

/-- Loop body of the settings-reset loop of `cleanup`: each key is updated to
`undefined`; only a successful update increments `settingsReset`, errors are
logged and not counted. -/
def cleanupResetStep (host : Host) (acc : SettingsResult) (key : String) :
    SettingsResult :=
  let t := acc.trace ++ [.update key none]
  match host.updateConfig key none with
  | .ok _ => { acc with success := acc.success + 1, trace := t }
  | .error _ => { acc with trace := t }

/-- Result of the `bartdorsey.configureSettings` command: the final status
shown in the status bar, the reported tallies, and the host calls issued. -/
structure ConfigureResult where
  finalStatus : SetupStatus
  installed : Nat
  failed : Nat
  skipped : Nat
  settingsSuccess : Nat
  settingsError : Nat
  trace : List HostCall

/-- `configureCommand` from `src/extension.ts`.  `answer` is the user's reply
to the confirmation dialog; anything but "Yes" resets the status bar to
not-started and returns before any host call.  Otherwise the command runs
`installExtensions`, applies the environment's settings map, and ends in
status `complete` exactly when both failure tallies are zero. -/
def configureCommand (answer : String) (environment : Environment)
    (host : Host) : ConfigureResult :=
  if answer ≠ "Yes" then ⟨.notStarted, 0, 0, 0, 0, 0, []⟩
  else
    let extensionResults := installExtensions environment host
    let s := applySettings host (getSettingsForEnvironment environment)
    let finalStatus :=
      if s.error = 0 ∧ extensionResults.failed = 0 then SetupStatus.complete
      else SetupStatus.error
    ⟨finalStatus, extensionResults.installed, extensionResults.failed,
      extensionResults.skipped, s.success, s.error,
      extensionResults.trace ++ s.trace⟩

/-- The all-file-types-enabled object `enableCopilot` writes to
`github.copilot.enable`. -/
def copilotEnableAllValue : SettingValue := .obj [
  ("*", .bool true),
  ("plaintext", .bool true),
  ("markdown", .bool true),
  ("scminput", .bool true),
  ("css", .bool true)]

/-- The all-file-types-disabled object `disableCopilot` writes to
`github.copilot.enable`. -/
def copilotDisableAllValue : SettingValue := .obj [
  ("*", .bool false),
  ("plaintext", .bool false),
  ("markdown", .bool false),
  ("scminput", .bool false),
  ("css", .bool false)]

/-- Result of the `bartdorsey.enableCopilot` command. -/
structure EnableCopilotResult where
  installed : Nat
  failed : Nat
  skipped : Nat
  settingsSuccess : Nat
  settingsFailed : Nat
  trace : List HostCall

/-- `enableCopilotCommand` from `src/extension.ts`: after confirmation,
install the two Copilot extensions (same loop body as `installExtensions`),
then set `github.copilot.enable` to all-true and `chat.disableAIFeatures` to
`false`, counting each update as in the configure settings loop. -/
def enableCopilotCommand (answer : String) (host : Host) : EnableCopilotResult :=
  if answer ≠ "Yes" then ⟨0, 0, 0, 0, 0, []⟩
  else
    let inst := COPILOT_EXTENSIONS.foldl (installStep host) ⟨0, 0, 0, []⟩
    let s1 := settingsStep host ⟨0, 0, []⟩ ("github.copilot.enable", copilotEnableAllValue)
    let s2 := settingsStep host s1 ("chat.disableAIFeatures", .bool false)
    ⟨inst.installed, inst.failed, inst.skipped, s2.success, s2.error,
      inst.trace ++ s2.trace⟩

/-- Result of the `bartdorsey.disableCopilot` command. -/
structure DisableCopilotResult where
  uninstalled : Nat
  uninstallFailed : Nat
  settingsSuccess : Nat
  trace : List HostCall

/-- The fixed uninstall order of `disableCopilot` (chat first, then
copilot). -/
def disableUninstallOrder : List String := ["github.copilot-chat", "github.copilot"]

/-- `disableCopilotCommand` from `src/extension.ts`: after confirmation,
uninstall the two Copilot extensions (benign "is not installed" errors are
skipped), then set `github.copilot.enable` to all-false and
`chat.disableAIFeatures` to `true`. -/
def disableCopilotCommand (answer : String) (host : Host) : DisableCopilotResult :=
  if answer ≠ "Yes" then ⟨0, 0, 0, []⟩
  else
    let u := disableUninstallOrder.foldl (uninstallStep host) ⟨0, 0, [], []⟩
    let s1 := disableSettingStep host ⟨0, 0, []⟩ ("github.copilot.enable", copilotDisableAllValue)
    let s2 := disableSettingStep host s1 ("chat.disableAIFeatures", .bool true)
    ⟨u.uninstalled, u.uninstallFailed, s2.success, u.trace ++ s2.trace⟩

/-- `dependenciesToUninstallFirst` from the cleanup command. -/
def dependenciesToUninstallFirst : List String := [
  "ms-python.black-formatter",
  "ms-python.flake8",
  "github.copilot-chat"]

/-- `allExtensions` as built inside the cleanup command (again duplicating the
`getExtensionsForEnvironment` switch). -/
def cleanupAllExtensions (environment : Environment) : List String :=
  let base := REQUIRED_EXTENSIONS
  match environment with
  | .windows => base ++ WINDOWS_EXTENSIONS ++ [WSL_EXTENSION]
  | .wsl => base ++ WINDOWS_EXTENSIONS ++ WSL_SPECIFIC_EXTENSIONS ++ [WSL_EXTENSION]
  | .linux => base ++ LINUX_EXTENSIONS
  | .other => base

/-- `uninstallOrder` of the cleanup command: the dependency extensions first,
then the rest of `allExtensions`. -/
def cleanupUninstallOrder (environment : Environment) : List String :=
  dependenciesToUninstallFirst ++
    (cleanupAllExtensions environment).filter
      (fun id => !dependenciesToUninstallFirst.contains id)

/-- Result of the `bartdorsey.cleanup` command. -/
structure CleanupResult where
  uninstalled : Nat
  uninstallFailed : Nat
  failedExtensions : List String
  settingsReset : Nat
  trace : List HostCall

/-- `cleanupCommand` from `src/extension.ts`: the confirmation button is
"Yes, Cleanup"; afterwards every extension of `cleanupUninstallOrder` is
uninstalled (benign "is not installed" errors skipped) and every key of the
environment's settings map is reset to `undefined`.  (The
`globalState.update("backupCreated", true)` bookkeeping write touches neither
extensions nor configuration and is not traced.) -/
def cleanupCommand (answer : String) (environment : Environment) (host : Host) :
    CleanupResult :=
  if answer ≠ "Yes, Cleanup" then ⟨0, 0, [], 0, []⟩
  else
    let u := (cleanupUninstallOrder environment).foldl (uninstallStep host) ⟨0, 0, [], []⟩
    let s := ((getSettingsForEnvironment environment).map Prod.fst).foldl
      (cleanupResetStep host) ⟨0, 0, []⟩
    ⟨u.uninstalled, u.uninstallFailed, u.failedExtensions, s.success,
      u.trace ++ s.trace⟩

/-- JavaScript `val === true` on a setting value. -/
def isBoolTrue : SettingValue → Bool
  | .bool true => true
  | _ => false

/-- The menu's first test: `github.copilot.enable` holds an object (in
JavaScript also an array) with some `true` value. -/
def copilotEnableHasTrue : Option SettingValue → Bool
  | some (.obj fields) => fields.any (fun p => isBoolTrue p.2)
  | some (.arr xs) => xs.any isBoolTrue
  | _ => false

/-- The menu's second test: `chat.disableAIFeatures === false`. -/
def chatDisabledIsFalse : Option SettingValue → Bool
  | some (.bool false) => true
  | _ => false

/-- The `copilotEnabled` predicate of the menu command in `src/extension.ts`,
reading the two keys from the configuration store. -/
def menuCopilotEnabled (store : List (String × SettingValue)) : Bool :=
  copilotEnableHasTrue (lookupKey store "github.copilot.enable") ||
    chatDisabledIsFalse (lookupKey store "chat.disableAIFeatures")

/-- The action of the second menu item: "disableCopilot" when the menu deems
Copilot enabled, otherwise "enableCopilot". -/
def menuSecondAction (store : List (String × SettingValue)) : String :=
  if menuCopilotEnabled store then "disableCopilot" else "enableCopilot"

/-- A host on which every call succeeds and nothing is installed (used to
instantiate universally quantified theorems at a concrete input). -/
def demoHost : Host where
  isInstalled := fun _ => false
  installExt := fun _ => Except.ok ()
  uninstallExt := fun _ => Except.ok ()
  updateConfig := fun _ _ => Except.ok ()

/-- A host whose configuration updates always throw the benign
"not a registered configuration" message. -/
def benignErrorHost : Host :=
  { demoHost with
    updateConfig := fun _ _ =>
      Except.error "editor.fontSize is not a registered configuration" }

/-- Whether a host call succeeded. -/
def isOkE : Except String Unit → Bool
  | .ok _ => true
  | .error _ => false

/-- An extension the install loop installs: not yet present and the install
call succeeds. -/
def installOkPred (host : Host) (id : String) : Bool :=
  !host.isInstalled id && isOkE (host.installExt id)

/-- An extension the install loop counts as failed: not yet present and the
install call throws. -/
def installFailPred (host : Host) (id : String) : Bool :=
  !host.isInstalled id && !isOkE (host.installExt id)

/-- A settings entry the configure loop counts as configured: the update
succeeds, or throws the benign "not a registered configuration" message. -/
def settingAttemptOk (host : Host) (kv : String × SettingValue) : Bool :=
  match host.updateConfig kv.1 (some kv.2) with
  | .ok _ => true
  | .error m => benignConfigError m

/-- An uninstall call that succeeds. -/
def uninstallOkPred (host : Host) (id : String) : Bool :=
  isOkE (host.uninstallExt id)

/-- An uninstall call that throws the benign "is not installed" message
(logged and skipped, counted nowhere). -/
def uninstallBenignPred (host : Host) (id : String) : Bool :=
  match host.uninstallExt id with
  | .ok _ => false
  | .error m => benignNotInstalled m

/-- An uninstall call that throws any other message (counted as a failure). -/
def uninstallHardFailPred (host : Host) (id : String) : Bool :=
  match host.uninstallExt id with
  | .ok _ => false
  | .error m => !benignNotInstalled m

/-! ## Lemmas about the key/value-map model -/

theorem lookupKey_append {α : Type} (a b : List (String × α)) (k : String) :
    lookupKey (a ++ b) k = orElseOpt (lookupKey a k) (lookupKey b k) := by
  induction a with
  | nil => simp [lookupKey, orElseOpt]
  | cons p rest ih =>
    by_cases h : p.1 = k
    · simp [lookupKey, h, orElseOpt]
    · simp [lookupKey, h, ih]

theorem lookupKey_eq_none {α : Type} (m : List (String × α)) (k : String)
    (h : k ∉ m.map Prod.fst) : lookupKey m k = none := by
  induction m with
  | nil => rfl
  | cons p rest ih =>
    simp only [List.map_cons, List.mem_cons, not_or] at h
    have hp : ¬p.1 = k := fun hpk => h.1 hpk.symm
    simp [lookupKey, hp, ih h.2]

theorem lookupKey_replace {α : Type} (m : List (String × α)) (c : String) (v : α)
    (k : String) :
    lookupKey (m.map (fun p => if p.1 = c then (p.1, v) else p)) k =
      if k = c then (if m.any (fun p => p.1 = c) then some v else none)
      else lookupKey m k := by
  induction m with
  | nil => simp [lookupKey]
  | cons p rest ih =>
    by_cases hpc : p.1 = c
    · by_cases hkc : k = c
      · simp [lookupKey, hpc, hkc, hpc.trans hkc.symm]
      · have hpk : ¬p.1 = k := fun h => hkc (h.symm.trans hpc)
        have hck : ¬c = k := fun h => hkc h.symm
        simp [lookupKey, hpc, hkc, hpk, hck, ih]
    · by_cases hpk : p.1 = k
      · have hkc : ¬k = c := fun h => hpc (hpk.trans h)
        simp [lookupKey, hpc, hpk, hkc]
      · have hdp : (decide (p.1 = c)) = false := decide_eq_false hpc
        simp only [List.map_cons, List.any_cons, hdp, Bool.false_or]
        simp [lookupKey, hpc, hpk, ih]

theorem lookupKey_spreadInsert {α : Type} (m : List (String × α))
    (kv : String × α) (k : String) :
    lookupKey (spreadInsert m kv) k =
      if k = kv.1 then some kv.2 else lookupKey m k := by
  unfold spreadInsert
  by_cases hmem : m.any (fun p => p.1 = kv.1)
  · rw [if_pos hmem, lookupKey_replace]
    by_cases hk : k = kv.1 <;> simp [hk, hmem]
  · rw [if_neg hmem, lookupKey_append]
    by_cases hk : k = kv.1
    · subst hk
      have hnone : lookupKey m kv.1 = none := by
        apply lookupKey_eq_none
        intro hin
        exact hmem (List.any_eq_true.mpr (by
          obtain ⟨p, hp, hfst⟩ := List.mem_map.mp hin
          exact ⟨p, hp, decide_eq_true hfst⟩))
      simp [hnone, lookupKey, orElseOpt]
    · have hns : ¬kv.1 = k := fun h => hk h.symm
      cases hlm : lookupKey m k <;> simp [lookupKey, hk, hns, orElseOpt]

theorem lookupKey_spread {α : Type} (b : List (String × α)) :
    ∀ (a : List (String × α)) (k : String), (b.map Prod.fst).Nodup →
      lookupKey (spread a b) k = orElseOpt (lookupKey b k) (lookupKey a k) := by
  induction b with
  | nil => intro a k _; simp [spread, lookupKey, orElseOpt]
  | cons kv rest ih =>
    intro a k h
    simp only [List.map_cons, List.nodup_cons] at h
    obtain ⟨hnotin, hnd⟩ := h
    show lookupKey (spread (spreadInsert a kv) rest) k = _
    rw [ih (spreadInsert a kv) k hnd, lookupKey_spreadInsert]
    by_cases hk : k = kv.1
    · subst hk
      have hrest : lookupKey rest kv.1 = none := lookupKey_eq_none rest kv.1 hnotin
      simp [lookupKey, hrest, orElseOpt]
    · have hns : ¬kv.1 = k := fun h => hk h.symm
      simp [lookupKey, hk, hns]

/-! ## Lemmas about the batch loops -/

theorem countP_not_add {α : Type} (p : α → Bool) (l : List α) :
    l.countP p + l.countP (fun a => !p a) = l.length := by
  induction l with
  | nil => simp
  | cons a rest ih =>
    simp only [List.countP_cons, List.length_cons]
    cases h : p a <;> simp [h] <;> omega

theorem installFold_counts (host : Host) (ids : List String) :
    ∀ acc : InstallResult,
      ((ids.foldl (installStep host) acc).skipped =
        acc.skipped + ids.countP (fun id => host.isInstalled id))
    ∧ ((ids.foldl (installStep host) acc).installed =
        acc.installed + ids.countP (installOkPred host))
    ∧ ((ids.foldl (installStep host) acc).failed =
        acc.failed + ids.countP (installFailPred host)) := by
  induction ids with
  | nil => intro acc; simp
  | cons id rest ih =>
    intro acc
    simp only [List.foldl_cons, List.countP_cons]
    obtain ⟨h1, h2, h3⟩ := ih (installStep host acc id)
    refine ⟨?_, ?_, ?_⟩
    · rw [h1]
      by_cases hin : host.isInstalled id
      · simp [installStep, hin]; omega
      · cases hok : host.installExt id <;>
          simp [installStep, hin, hok] <;> omega
    · rw [h2]
      by_cases hin : host.isInstalled id
      · simp [installStep, installOkPred, hin]
      · cases hok : host.installExt id <;>
          simp [installStep, installOkPred, isOkE, hin, hok] <;> omega
    · rw [h3]
      by_cases hin : host.isInstalled id
      · simp [installStep, installFailPred, hin]
      · cases hok : host.installExt id <;>
          simp [installStep, installFailPred, isOkE, hin, hok] <;> omega

theorem installPartition (host : Host) (ids : List String) :
    ids.countP (installOkPred host) + ids.countP (installFailPred host) +
      ids.countP (fun id => host.isInstalled id) = ids.length := by
  induction ids with
  | nil => simp
  | cons id rest ih =>
    simp only [List.countP_cons, List.length_cons]
    by_cases hin : host.isInstalled id
    · simp [installOkPred, installFailPred, hin]; omega
    · cases hok : host.installExt id <;>
        simp [installOkPred, installFailPred, isOkE, hin, hok] <;> omega

theorem settingsFold_counts (host : Host) (entries : List (String × SettingValue)) :
    ∀ acc : SettingsResult,
      ((entries.foldl (settingsStep host) acc).success =
        acc.success + entries.countP (settingAttemptOk host))
    ∧ ((entries.foldl (settingsStep host) acc).error =
        acc.error + entries.countP (fun kv => !settingAttemptOk host kv)) := by
  induction entries with
  | nil => intro acc; simp
  | cons kv rest ih =>
    intro acc
    simp only [List.foldl_cons, List.countP_cons]
    obtain ⟨h1, h2⟩ := ih (settingsStep host acc kv)
    refine ⟨?_, ?_⟩
    · rw [h1]
      cases hu : host.updateConfig kv.1 (some kv.2) with
      | ok _ => simp [settingsStep, settingAttemptOk, hu]; omega
      | error m =>
        cases hb : benignConfigError m <;>
          simp [settingsStep, settingAttemptOk, hu, hb] <;> omega
    · rw [h2]
      cases hu : host.updateConfig kv.1 (some kv.2) with
      | ok _ => simp [settingsStep, settingAttemptOk, hu]
      | error m =>
        cases hb : benignConfigError m <;>
          simp [settingsStep, settingAttemptOk, hu, hb] <;> omega

theorem uninstallFold_counts (host : Host) (ids : List String) :
    ∀ acc : UninstallResult,
      ((ids.foldl (uninstallStep host) acc).uninstalled =
        acc.uninstalled + ids.countP (uninstallOkPred host))
    ∧ ((ids.foldl (uninstallStep host) acc).uninstallFailed =
        acc.uninstallFailed + ids.countP (uninstallHardFailPred host)) := by
  induction ids with
  | nil => intro acc; simp
  | cons id rest ih =>
    intro acc
    simp only [List.foldl_cons, List.countP_cons]
    obtain ⟨h1, h2⟩ := ih (uninstallStep host acc id)
    refine ⟨?_, ?_⟩
    · rw [h1]
      cases hu : host.uninstallExt id with
      | ok _ => simp [uninstallStep, uninstallOkPred, isOkE, hu]; omega
      | error m =>
        cases hb : benignNotInstalled m <;>
          simp [uninstallStep, uninstallOkPred, isOkE, hu, hb] <;> omega
    · rw [h2]
      cases hu : host.uninstallExt id with
      | ok _ => simp [uninstallStep, uninstallHardFailPred, hu]
      | error m =>
        cases hb : benignNotInstalled m <;>
          simp [uninstallStep, uninstallHardFailPred, hu, hb] <;> omega

theorem uninstallPartition (host : Host) (ids : List String) :
    ids.countP (uninstallOkPred host) + ids.countP (uninstallHardFailPred host) +
      ids.countP (uninstallBenignPred host) = ids.length := by
  induction ids with
  | nil => simp
  | cons id rest ih =>
    simp only [List.countP_cons, List.length_cons]
    cases hu : host.uninstallExt id with
    | ok _ =>
      simp [uninstallOkPred, uninstallHardFailPred, uninstallBenignPred, isOkE, hu]
      omega
    | error m =>
      cases hb : benignNotInstalled m <;>
        simp [uninstallOkPred, uninstallHardFailPred, uninstallBenignPred,
          isOkE, hu, hb] <;> omega

/-! ## Claim theorems -/

/-- C1: for every input triple (remote-session name, platform string, kernel
release string) the environment classifier `getEnvironment` returns "wsl"
when the remote-session name is "wsl"; otherwise "windows" when the platform
is "win32"; otherwise "wsl" when the platform is "linux" and the lowercased
kernel release contains "microsoft"; otherwise "linux" when the platform is
"linux"; otherwise "other" — i.e. it agrees with `classifyEnvironmentSpec`,
which is written from those words. -/
theorem getEnvironment_matches_spec :
    ∀ (remoteName : Option String) (platform release : String),
      getEnvironment remoteName platform release =
        classifyEnvironmentSpec remoteName platform release :=
  fun _ _ _ => rfl

/-- C2 (code bug): the cleanup command's uninstall list never contains
"github.copilot" in any environment, although the enable-Copilot command
installs it (`COPILOT_EXTENSIONS`) and the list does contain
"github.copilot-chat"; the settings half of the claim does hold — the reset
loop covers every key the configure and enable-Copilot commands set, in
particular both Copilot keys. -/
theorem cleanup_misses_github_copilot : ∀ e : Environment,
    "github.copilot" ∉ cleanupUninstallOrder e
  ∧ "github.copilot-chat" ∈ cleanupUninstallOrder e
  ∧ "github.copilot" ∈ COPILOT_EXTENSIONS
  ∧ "github.copilot.enable" ∈ (getSettingsForEnvironment e).map Prod.fst
  ∧ "chat.disableAIFeatures" ∈ (getSettingsForEnvironment e).map Prod.fst := by
  intro e
  cases e <;> exact ⟨by decide, by decide, by decide, by decide, by decide⟩

/-- C3: for every environment label, both the extension list of
`getExtensionsForEnvironment` and the list the install command builds inline
equal the static required list with the environment-conditional appends of
claim C3 (`extensionsSpec`). -/
theorem extension_lists_match_spec : ∀ e : Environment,
    getExtensionsForEnvironment e = extensionsSpec e
  ∧ extensionsToInstall e = extensionsSpec e := by
  intro e
  cases e <;> exact ⟨rfl, rfl⟩

/-- C4: for every environment and key, `getSettingsForEnvironment` is the
common settings map overridden by the environment's delta map
(`environmentDelta`, written from the claim's words), and for "other" it is
exactly the common settings. -/
theorem settings_are_common_overridden_by_delta :
    (∀ (e : Environment) (k : String),
      lookupKey (getSettingsForEnvironment e) k =
        orElseOpt (lookupKey (environmentDelta e) k) (lookupKey commonSettings k))
  ∧ getSettingsForEnvironment Environment.other = commonSettings := by
  refine ⟨?_, rfl⟩
  intro e k
  cases e <;> exact lookupKey_spread _ _ _ (by decide)

/-- C10: `WSL_SPECIFIC_EXTENSIONS` and `wslSettings` are empty, so the "wsl"
extension list and settings map equal the "windows" ones; in particular a WSL
session receives the Windows-specific vs64 filesystem-path settings. -/
theorem wsl_equals_windows :
    WSL_SPECIFIC_EXTENSIONS = []
  ∧ wslSettings = []
  ∧ getExtensionsForEnvironment Environment.wsl =
      getExtensionsForEnvironment Environment.windows
  ∧ getSettingsForEnvironment Environment.wsl =
      getSettingsForEnvironment Environment.windows
  ∧ lookupKey (getSettingsForEnvironment Environment.wsl) "vs64.kickInstallDir" =
      some (.str "E:\\c64\\coding\\KickAssembler")
  ∧ lookupKey (getSettingsForEnvironment Environment.wsl) "vs64.viceExecutable" =
      some (.str "E:\\GTK3VICE-3.10-win64\\bin\\x64sc.exe") :=
  ⟨rfl, rfl, rfl, rfl, rfl, rfl⟩

/-- C7: in every run of `installExtensions`, each extension of the
environment's list lands in exactly one tally — skipped when the host already
reports it installed, installed when the install call succeeds, failed when
it throws — so installed + failed + skipped equals the list's length. -/
theorem install_tallies_partition : ∀ (e : Environment) (host : Host),
    ((installExtensions e host).skipped =
      (extensionsToInstall e).countP (fun id => host.isInstalled id))
  ∧ ((installExtensions e host).installed =
      (extensionsToInstall e).countP (installOkPred host))
  ∧ ((installExtensions e host).failed =
      (extensionsToInstall e).countP (installFailPred host))
  ∧ ((installExtensions e host).installed + (installExtensions e host).failed +
      (installExtensions e host).skipped = (extensionsToInstall e).length) := by
  intro e host
  obtain ⟨h1, h2, h3⟩ := installFold_counts host (extensionsToInstall e) ⟨0, 0, 0, []⟩
  have hp := installPartition host (extensionsToInstall e)
  unfold installExtensions
  refine ⟨?_, ?_, ?_, ?_⟩ <;> simp_all <;> omega

/-- C6: in every command that writes settings, an update error whose message
contains "not a registered configuration" is counted as a success rather than
a failure and the batch proceeds: on a host whose updates always throw such a
message, the configure loop reports every entry configured with zero errors,
and the enable- and disable-Copilot commands report both of their settings
writes as successes. -/
theorem benign_config_error_counts_as_success (host : Host) (m : String)
    (entries : List (String × SettingValue))
    (hbenign : benignConfigError m = true)
    (hupd : ∀ k v, host.updateConfig k v = Except.error m) :
    (applySettings host entries).success = entries.length
  ∧ (applySettings host entries).error = 0
  ∧ (enableCopilotCommand "Yes" host).settingsSuccess = 2
  ∧ (enableCopilotCommand "Yes" host).settingsFailed = 0
  ∧ (disableCopilotCommand "Yes" host).settingsSuccess = 2 := by
  have hok : ∀ kv : String × SettingValue, settingAttemptOk host kv = true := by
    intro kv; simp [settingAttemptOk, hupd, hbenign]
  obtain ⟨h1, h2⟩ := settingsFold_counts host entries ⟨0, 0, []⟩
  refine ⟨?_, ?_, ?_, ?_, ?_⟩
  · rw [applySettings, h1]
    simp only [Nat.zero_add]
    exact List.countP_eq_length.mpr (fun kv _ => hok kv)
  · rw [applySettings, h2]
    simp only [Nat.zero_add]
    exact List.countP_eq_zero.mpr (fun kv _ => by simp [hok kv])
  · simp [enableCopilotCommand, settingsStep, hupd, hbenign]
  · simp [enableCopilotCommand, settingsStep, hupd, hbenign]
  · simp [disableCopilotCommand, disableSettingStep, uninstallStep, hupd, hbenign]

/-- Witness for C6 at a concrete input: the host whose updates always throw
"editor.fontSize is not a registered configuration", with the common settings
map as the batch. -/
theorem benign_config_error_counts_as_success_witness :
    benignConfigError "editor.fontSize is not a registered configuration" = true
  ∧ ((applySettings benignErrorHost commonSettings).success = commonSettings.length
    ∧ (applySettings benignErrorHost commonSettings).error = 0
    ∧ (enableCopilotCommand "Yes" benignErrorHost).settingsSuccess = 2
    ∧ (enableCopilotCommand "Yes" benignErrorHost).settingsFailed = 0
    ∧ (disableCopilotCommand "Yes" benignErrorHost).settingsSuccess = 2) :=
  ⟨by decide,
    benign_config_error_counts_as_success benignErrorHost
      "editor.fontSize is not a registered configuration" commonSettings
      (by decide) (fun _ _ => rfl)⟩

/-- C8: a command whose confirmation dialog is not answered with its
confirming button ("Yes", or "Yes, Cleanup" for cleanup) returns without
issuing any install, uninstall or configuration-update host call, and the
configure command additionally returns the status display to not-started. -/
theorem declined_commands_touch_nothing (e : Environment) (host : Host)
    (a b c d : String) (ha : a ≠ "Yes") (hb : b ≠ "Yes") (hc : c ≠ "Yes")
    (hd : d ≠ "Yes, Cleanup") :
    (configureCommand a e host).trace = []
  ∧ (configureCommand a e host).finalStatus = SetupStatus.notStarted
  ∧ (enableCopilotCommand b host).trace = []
  ∧ (disableCopilotCommand c host).trace = []
  ∧ (cleanupCommand d e host).trace = [] := by
  refine ⟨?_, ?_, ?_, ?_, ?_⟩ <;>
    simp [configureCommand, enableCopilotCommand, disableCopilotCommand,
      cleanupCommand, ha, hb, hc, hd]

/-- Witness for C8 at a concrete input: answering "No" (and "Cancel" to the
cleanup dialog) on the all-succeeding demo host. -/
theorem declined_commands_touch_nothing_witness :
    ("No" : String) ≠ "Yes"
  ∧ ("Cancel" : String) ≠ "Yes, Cleanup"
  ∧ ((configureCommand "No" Environment.linux demoHost).trace = []
    ∧ (configureCommand "No" Environment.linux demoHost).finalStatus = SetupStatus.notStarted
    ∧ (enableCopilotCommand "No" demoHost).trace = []
    ∧ (disableCopilotCommand "No" demoHost).trace = []
    ∧ (cleanupCommand "Cancel" Environment.linux demoHost).trace = []) :=
  ⟨by decide, by decide,
    declined_commands_touch_nothing Environment.linux demoHost "No" "No" "No"
      "Cancel" (by decide) (by decide) (by decide) (by decide)⟩

/-- C9: after the configure command applies the environment settings map to
any configuration store — which sets every entry of `github.copilot.enable`
to false but sets `chat.disableAIFeatures` to false — the menu's
Copilot-enabled predicate evaluates to true, so the menu offers
"Disable GitHub Copilot" (action `disableCopilot`) even though
`github.copilot.enable` disables Copilot for every file type. -/
theorem menu_shows_disable_after_configure :
    ∀ (e : Environment) (store : List (String × SettingValue)),
      menuCopilotEnabled (spread store (getSettingsForEnvironment e)) = true
    ∧ menuSecondAction (spread store (getSettingsForEnvironment e)) = "disableCopilot"
    ∧ lookupKey (spread store (getSettingsForEnvironment e)) "github.copilot.enable" =
        some copilotDisableAllValue
    ∧ copilotEnableHasTrue
        (lookupKey (spread store (getSettingsForEnvironment e)) "github.copilot.enable") =
        false := by
  intro e store
  have hnd : ((getSettingsForEnvironment e).map Prod.fst).Nodup := by
    cases e <;> decide
  have h1 : lookupKey (spread store (getSettingsForEnvironment e))
      "github.copilot.enable" = some copilotDisableAllValue := by
    rw [lookupKey_spread _ _ _ hnd]; cases e <;> rfl
  have h2 : lookupKey (spread store (getSettingsForEnvironment e))
      "chat.disableAIFeatures" = some (.bool false) := by
    rw [lookupKey_spread _ _ _ hnd]; cases e <;> rfl
  have hm : menuCopilotEnabled (spread store (getSettingsForEnvironment e)) = true := by
    rw [menuCopilotEnabled, h1, h2]; rfl
  exact ⟨hm, by simp [menuSecondAction, hm], h1, by rw [h1]; rfl⟩

/-- C5: no per-item failure escapes a batch: for every host-oracle behaviour,
each batch processes its whole list and the aggregate counts the command
reports account for every item — in the configure command the extension
tallies sum to the environment list's length and the settings tallies sum to
the settings map's length (the error tally counting exactly the non-benign
update failures); in the enable-Copilot command the install tallies sum to
the Copilot list's length; in the disable-Copilot and cleanup commands the
uninstall tallies plus the benign "is not installed" skips sum to the
respective list's length, the failure tally counting exactly the non-benign
uninstall failures. -/
theorem batches_process_every_item : ∀ (e : Environment) (host : Host),
    ((configureCommand "Yes" e host).installed + (configureCommand "Yes" e host).failed +
      (configureCommand "Yes" e host).skipped = (extensionsToInstall e).length)
  ∧ ((configureCommand "Yes" e host).settingsSuccess +
      (configureCommand "Yes" e host).settingsError =
      (getSettingsForEnvironment e).length)
  ∧ ((configureCommand "Yes" e host).settingsError =
      (getSettingsForEnvironment e).countP (fun kv => !settingAttemptOk host kv))
  ∧ ((enableCopilotCommand "Yes" host).installed +
      (enableCopilotCommand "Yes" host).failed +
      (enableCopilotCommand "Yes" host).skipped = COPILOT_EXTENSIONS.length)
  ∧ ((disableCopilotCommand "Yes" host).uninstalled +
      (disableCopilotCommand "Yes" host).uninstallFailed +
      disableUninstallOrder.countP (uninstallBenignPred host) =
      disableUninstallOrder.length)
  ∧ ((cleanupCommand "Yes, Cleanup" e host).uninstalled +
      (cleanupCommand "Yes, Cleanup" e host).uninstallFailed +
      (cleanupUninstallOrder e).countP (uninstallBenignPred host) =
      (cleanupUninstallOrder e).length)
  ∧ ((cleanupCommand "Yes, Cleanup" e host).uninstallFailed =
      (cleanupUninstallOrder e).countP (uninstallHardFailPred host)) := by
  intro e host
  obtain ⟨hi1, hi2, hi3⟩ := installFold_counts host (extensionsToInstall e) ⟨0, 0, 0, []⟩
  have hip := installPartition host (extensionsToInstall e)
  obtain ⟨hs1, hs2⟩ := settingsFold_counts host (getSettingsForEnvironment e) ⟨0, 0, []⟩
  have hsp := countP_not_add (settingAttemptOk host) (getSettingsForEnvironment e)
  obtain ⟨hc1, hc2⟩ := installFold_counts host COPILOT_EXTENSIONS ⟨0, 0, 0, []⟩
  have hcp := installPartition host COPILOT_EXTENSIONS
  obtain ⟨hd1, hd2⟩ := uninstallFold_counts host disableUninstallOrder ⟨0, 0, [], []⟩
  have hdp := uninstallPartition host disableUninstallOrder
  obtain ⟨hu1, hu2⟩ := uninstallFold_counts host (cleanupUninstallOrder e) ⟨0, 0, [], []⟩
  have hup := uninstallPartition host (cleanupUninstallOrder e)
  refine ⟨?_, ?_, ?_, ?_, ?_, ?_, ?_⟩ <;>
    simp_all [configureCommand, enableCopilotCommand, disableCopilotCommand,
      cleanupCommand, installExtensions, applySettings] <;> omega

end VSCodeConfig
